import Mathlib

/-!
Verification of the semantic-diff core of the repository
(`identify_semantic_changes` in
`src/1/1.2/1.2.2/1.2.2.3/identify_semantic_changes_implementation.py`).

The Python function parses two code revisions, walks each tree with an
`ast.NodeVisitor` that accumulates `functions`, `classes` (name-to-node
dicts) and `dependencies` (a set of imported module names), and then
reports dependency changes, function changes and class changes as a list
of strings.

The embedding below mirrors that code over a small statement language
covering the constructs the visitor dispatches on.  Two facts about the
source are load-bearing and are modelled explicitly:

1. `get_normalized_dump` calls `ast.dump(node.body)`.  `node.body` is a
   Python `list`, and CPython's `ast.dump` begins with
   `if not isinstance(node, AST): raise TypeError(...)` (message
   "expected AST, got 'list'"), for every Python 3 release.  Hence every
   call of `get_normalized_dump` raises, and the rename-detection loop
   raises `TypeError` on its first iteration whenever at least one
   declaration name was removed.  This is modelled by `astDump`
   returning an error unconditionally.

2. The visitor methods all end in `generic_visit`, so the walk recurses
   into class bodies and function bodies: methods of classes are
   recorded in the same flat `functions` dict as top-level functions,
   and imports inside bodies are recorded in `dependencies`.

The Python loop `for old_name in removed_names` iterates a `set`, whose
order is hash-dependent and unspecified; the embedding iterates the
removed names in source order.  Every behaviour proved below is
independent of that order: the loop fails on its first iteration
whenever the set is nonempty, and all surviving output is sorted.
-/

/-- Expressions of the modelled Python fragment (only used as opaque
body content; the diff code never inspects expressions). -/
inductive Expr where
  | num (n : Int)
  | name (s : String)
  | str (s : String)
  | binop (op : String) (a b : Expr)
  | call (f : Expr) (args : List Expr)

/-- Statements of the modelled Python fragment: exactly the node kinds
the visitor dispatches on (`FunctionDef`, `ClassDef`, `Import`,
`ImportFrom`) plus simple body statements with no statement children. -/
inductive Stmt where
  | passStmt
  | ret (e : Option Expr)
  | exprStmt (e : Expr)
  | functionDef (name : String) (params : List String) (body : List Stmt)
  | classDef (name : String) (body : List Stmt)
  | importStmt (names : List String)
  | importFrom (module : Option String) (names : List String)

/-- The `.body` attribute read by `get_normalized_dump` (a statement
list for `FunctionDef` and `ClassDef` nodes). -/
def Stmt.body : Stmt → List Stmt
  | .functionDef _ _ b => b
  | .classDef _ b => b
  | _ => []

/-- Python exceptions that can escape `identify_semantic_changes`. -/
inductive PyErr where
  | typeError (msg : String)
deriving DecidableEq, Repr

/-- One change record; the Python code builds these as f-strings, with
an `item_type` argument that is the string "Function" or "Class".
`renderChange` below reproduces the exact strings. -/
inductive Change where
  | depAdded (name : String)
  | depRemoved (name : String)
  | added (itemType : String) (name : String)
  | removed (itemType : String) (name : String)
  | renamed (itemType : String) (oldName newName : String)
deriving DecidableEq, Repr

/-- State of `CodeVisitor`: `functions` and `classes` are Python dicts
(association lists with last-write-wins update, insertion order), and
`dependencies` is a Python set (modelled as a duplicate-free list; only
membership is ever observed, since the code sorts before emitting). -/
structure CodeVisitor where
  functions : List (String × Stmt)
  classes : List (String × Stmt)
  dependencies : List String

def emptyVisitor : CodeVisitor := ⟨[], [], []⟩

/-- Python dict assignment `d[k] = v`: overwrite in place if the key
exists, else append. -/
def dictInsert (d : List (String × Stmt)) (k : String) (v : Stmt) :
    List (String × Stmt) :=
  if d.any (fun p => p.1 == k) then
    d.map (fun p => if p.1 == k then (k, v) else p)
  else d ++ [(k, v)]

/-- Python set `s.add(x)`. -/
def setAdd (s : List String) (x : String) : List String :=
  if x ∈ s then s else s ++ [x]

/-- Python dict subscript `d[k]`; at every call site of the source the
key is present, so the default branch is unreachable. -/
def dictGet (d : List (String × Stmt)) (k : String) : Stmt :=
  match d.find? (fun p => p.1 == k) with
  | some p => p.2
  | none => .passStmt

mutual
/-- One step of `CodeVisitor.visit`: each handler records its node and
then calls `generic_visit`, recursing into the statement children. -/
def visit (v : CodeVisitor) : Stmt → CodeVisitor
  | .functionDef name params body =>
      visitAll
        { v with functions := dictInsert v.functions name (.functionDef name params body) }
        body
  | .classDef name body =>
      visitAll
        { v with classes := dictInsert v.classes name (.classDef name body) }
        body
  | .importStmt names =>
      { v with dependencies := names.foldl setAdd v.dependencies }
  | .importFrom mod _names =>
      match mod with
      | some m => { v with dependencies := setAdd v.dependencies m }
      | none => v
  | _ => v

/-- Visiting a statement list in order (the module body, or the
children walked by `generic_visit`). -/
def visitAll (v : CodeVisitor) : List Stmt → CodeVisitor
  | [] => v
  | s :: rest => visitAll (visit v s) rest
end

/-- Keys of a Python dict, in insertion order. -/
def keys (d : List (String × Stmt)) : List String := d.map (fun p => p.1)

/-- Python `sorted(list(a - b))` membership part: the elements of `a`
not in `b` (set difference; `a` is duplicate-free at every call site). -/
def missingFrom (a b : List String) : List String :=
  a.filter (fun n => decide (n ∉ b))

/-- Strict lexicographic comparison of code-point lists (how Python
compares `str` values). -/
def charListLt : List Char → List Char → Bool
  | [], [] => false
  | [], _ :: _ => true
  | _ :: _, [] => false
  | a :: as, b :: bs =>
    if a.toNat < b.toNat then true
    else if b.toNat < a.toNat then false
    else charListLt as bs

/-- Strict lexicographic comparison of strings by code point. -/
def strLt (a b : String) : Bool := charListLt a.data b.data

/-- Insertion step of an ascending insertion sort on strings. -/
def insertSorted (s : String) : List String → List String
  | [] => [s]
  | t :: rest => if strLt s t then s :: t :: rest else t :: insertSorted s rest

/-- Python `sorted(...)` on a list of strings. -/
def sortStrings (l : List String) : List String :=
  l.foldr insertSorted []

/-- CPython `ast.dump` applied to `node.body`.  The argument is a
Python `list`, never an `ast.AST`, and `ast.dump` raises
`TypeError("expected AST, got ...")` for every non-AST argument, so
this call fails unconditionally. -/
def astDump (_body : List Stmt) : Except PyErr String :=
  .error (.typeError "expected AST, got list")

/-- The `location_regex.sub` normalisation.  The embedded nodes carry
no location fields, so the substitution is the identity; it is
unreachable anyway because `astDump` always fails. -/
def stripLocations (s : String) : String := s

/-- The source's `get_normalized_dump(node)`:
`ast.dump(node.body)` followed by the location substitution. -/
def get_normalized_dump (node : Stmt) : Except PyErr String := do
  let dump ← astDump node.body
  return stripLocations dump

/-- Accumulator of the rename loop: the renamed-records emitted so far,
`handled_removals` and `handled_additions`. -/
def RenameState := List Change × List String × List String

/-- Inner loop of the rename scan: for one removed name with its dump,
scan `added_names`, skip names already handled, and on the first match
of nonempty dumps record the rename and stop (`break`). -/
def renameInner (new_items : List (String × Stmt)) (item_type : String)
    (old_name : String) (old_body_dump : String) (st : RenameState) :
    List String → Except PyErr RenameState
  | [] => .ok st
  | new_name :: rest =>
    if new_name ∈ st.2.2 then
      renameInner new_items item_type old_name old_body_dump st rest
    else do
      let new_body_dump ← get_normalized_dump (dictGet new_items new_name)
      if old_body_dump = new_body_dump ∧ old_body_dump ≠ "[]" then
        .ok (st.1 ++ [Change.renamed item_type old_name new_name],
             st.2.1 ++ [old_name], st.2.2 ++ [new_name])
      else
        renameInner new_items item_type old_name old_body_dump st rest

/-- Outer loop of the rename scan over the removed names.  Each
iteration first computes `get_normalized_dump` of the removed node,
which raises `TypeError`, so the loop fails whenever its list is
nonempty. -/
def renameOuter (old_items new_items : List (String × Stmt))
    (item_type : String) (added_names : List String) (st : RenameState) :
    List String → Except PyErr RenameState
  | [] => .ok st
  | old_name :: rest => do
    let old_body_dump ← get_normalized_dump (dictGet old_items old_name)
    let st2 ← renameInner new_items item_type old_name old_body_dump st added_names
    renameOuter old_items new_items item_type added_names st2 rest

/-- The source's `find_structure_changes`: set differences of the key
sets, the rename scan, then the remaining additions and removals in
ascending sorted order. -/
def find_structure_changes (old_items new_items : List (String × Stmt))
    (item_type : String) : Except PyErr (List Change) :=
  let removed_names := missingFrom (keys old_items) (keys new_items)
  let added_names := missingFrom (keys new_items) (keys old_items)
  match renameOuter old_items new_items item_type added_names ([], [], []) removed_names with
  | .error e => .error e
  | .ok (renames, handled_removals, handled_additions) =>
    .ok (renames
      ++ (sortStrings (added_names.filter (fun n => decide (n ∉ handled_additions)))).map
           (fun n => Change.added item_type n)
      ++ (sortStrings (removed_names.filter (fun n => decide (n ∉ handled_removals)))).map
           (fun n => Change.removed item_type n))

/-- Step 1 of the diff: `sorted(new - old)` reported as added, then
`sorted(old - new)` reported as removed. -/
def depDiff (old_v new_v : CodeVisitor) : List Change :=
  (sortStrings (missingFrom new_v.dependencies old_v.dependencies)).map Change.depAdded
    ++ (sortStrings (missingFrom old_v.dependencies new_v.dependencies)).map Change.depRemoved

/-- The body of `identify_semantic_changes` after both parses
succeeded: run the visitor on both trees, then dependency diff,
function diff, class diff, concatenated in that order.  An exception in
either `find_structure_changes` call propagates and discards the
accumulated list. -/
def identify_semantic_changes_core (old_tree new_tree : List Stmt) :
    Except PyErr (List Change) :=
  let old_v := visitAll emptyVisitor old_tree
  let new_v := visitAll emptyVisitor new_tree
  match find_structure_changes old_v.functions new_v.functions "Function" with
  | .error e => .error e
  | .ok fn_changes =>
    match find_structure_changes old_v.classes new_v.classes "Class" with
    | .error e => .error e
    | .ok cls_changes => .ok (depDiff old_v new_v ++ fn_changes ++ cls_changes)

/-- A single-quote character, used by the rename f-string. -/
def quoteMark : String := String.singleton (Char.ofNat 39)

/-- The exact strings the Python code appends to `changes`. -/
def renderChange : Change → String
  | .depAdded name => "Dependency Added: " ++ name
  | .depRemoved name => "Dependency Removed: " ++ name
  | .added t name => t ++ " Added: " ++ name
  | .removed t name => t ++ " Removed: " ++ name
  | .renamed t o n =>
      t ++ " Renamed: " ++ quoteMark ++ o ++ quoteMark ++ " to "
        ++ quoteMark ++ n ++ quoteMark

/-- The full `identify_semantic_changes`.  Parsing is performed by the
external `ast.parse`; each argument is the parse result of one
revision (`Except` error carries the `SyntaxError` message).  The
source parses `old_code` first, so an old-revision failure is reported
even when the new revision is also malformed, and either failure is
returned as the single string `"Syntax error in code: " ++ msg`. -/
def identify_semantic_changes (old_code new_code : Except String (List Stmt)) :
    Except PyErr (List String) :=
  match old_code with
  | .error e => .ok ["Syntax error in code: " ++ e]
  | .ok old_tree =>
    match new_code with
    | .error e => .ok ["Syntax error in code: " ++ e]
    | .ok new_tree =>
      match identify_semantic_changes_core old_tree new_tree with
      | .error e => .error e
      | .ok changes => .ok (changes.map renderChange)

/-- The extractor's `functions` dict for one revision (note the walk
recurses into class and function bodies, so methods and nested
functions appear here too). -/
def extractedFunctions (t : List Stmt) : List (String × Stmt) :=
  (visitAll emptyVisitor t).functions

/-- The extractor's `classes` dict for one revision. -/
def extractedClasses (t : List Stmt) : List (String × Stmt) :=
  (visitAll emptyVisitor t).classes

/-- The extractor's `dependencies` set for one revision. -/
def extractedDeps (t : List Stmt) : List String :=
  (visitAll emptyVisitor t).dependencies

/-- The dependency-change prefix of the diff of two revisions. -/
def depChangesOf (o n : List Stmt) : List Change :=
  depDiff (visitAll emptyVisitor o) (visitAll emptyVisitor n)

/-- The function-change block a successful diff emits: the function
names of the new revision absent from the old one, sorted ascending,
each as `Added`. -/
def fnAddedChanges (o n : List Stmt) : List Change :=
  (sortStrings (missingFrom (keys (extractedFunctions n)) (keys (extractedFunctions o)))).map
    (fun m => Change.added "Function" m)

/-- The class-change block a successful diff emits. -/
def clsAddedChanges (o n : List Stmt) : List Change :=
  (sortStrings (missingFrom (keys (extractedClasses n)) (keys (extractedClasses o)))).map
    (fun m => Change.added "Class" m)

/-- Whether a change record is a `Renamed` record. -/
def Change.isRenamed : Change → Bool
  | .renamed _ _ _ => true
  | _ => false

/-- Whether a change record is a record of kind `t` (Function or
Class) about the declaration named `x`: an `Added`/`Removed` of that
name, or a `Renamed` with that name on either side. -/
def mentionsDecl (t x : String) : Change → Bool
  | .added t2 n2 => t2 == t && n2 == x
  | .removed t2 n2 => t2 == t && n2 == x
  | .renamed t2 o2 n2 => t2 == t && (o2 == x || n2 == x)
  | _ => false

/-! Concrete revision pairs used by the claims. -/

/-- Scenario D, old revision: `class C` with method `m(self, a, b)`. -/
def oldScenarioD : List Stmt :=
  [.classDef "C" [.functionDef "m" ["self", "a", "b"] [.ret (some (.name "a"))]]]

/-- Scenario D, new revision: the method became `m(self, a, b, c)`. -/
def newScenarioD : List Stmt :=
  [.classDef "C" [.functionDef "m" ["self", "a", "b", "c"] [.ret (some (.name "a"))]]]

/-- Scenario E, old revision: `def f(): pass`. -/
def oldScenarioE : List Stmt := [.functionDef "f" [] [.passStmt]]

/-- Scenario E, new revision: `def g(): pass`. -/
def newScenarioE : List Stmt := [.functionDef "g" [] [.passStmt]]

/-- Old revision with two removed functions `f1`, `f2` sharing one
non-trivial body (`return x`): two rename candidates. -/
def oldRenameTwo : List Stmt :=
  [.functionDef "f1" [] [.ret (some (.name "x"))],
   .functionDef "f2" [] [.ret (some (.name "x"))]]

/-- New revision with two added functions `g1`, `g2` sharing the same
non-trivial body. -/
def newRenameTwo : List Stmt :=
  [.functionDef "g1" [] [.ret (some (.name "x"))],
   .functionDef "g2" [] [.ret (some (.name "x"))]]

/-- The source's `test_function_renamed` old revision:
`def old_name(): return 1 + 2`. -/
def oldRenameOne : List Stmt :=
  [.functionDef "old_name" [] [.ret (some (.binop "+" (.num 1) (.num 2)))]]

/-- The source's `test_function_renamed` new revision:
`def new_name(): return 1 + 2`. -/
def newRenameOne : List Stmt :=
  [.functionDef "new_name" [] [.ret (some (.binop "+" (.num 1) (.num 2)))]]

/-- A revision consisting of a single `pass`. -/
def passOnly : List Stmt := [.passStmt]

/-- New revision adding `class C` with method `m(self): return 1`. -/
def newClassWithMethod : List Stmt :=
  [.classDef "C" [.functionDef "m" ["self"] [.ret (some (.num 1))]]]

/-- The source's `test_function_removed` old revision:
`def old_func(): return 42`. -/
def oldFnRemoved : List Stmt :=
  [.functionDef "old_func" [] [.ret (some (.num 42))]]

/-- New revision whose only import sits inside a function body
(`def f():` with a nested `import os` line followed by `return 1`). -/
def newNestedImport : List Stmt :=
  [.functionDef "f" [] [.importStmt ["os"], .ret (some (.num 1))]]

/-- Scenario C, old revision: a lone `import os` line. -/
def oldScenarioC : List Stmt := [.importStmt ["os"]]

/-- Scenario C, new revision: an `import os, sys` line plus a
`from collections` import. -/
def newScenarioC : List Stmt :=
  [.importStmt ["os", "sys"], .importFrom (some "collections") ["defaultdict"]]

/-- Old revision keeping function `f` and class `C`. -/
def oldKeptName : List Stmt :=
  [.functionDef "f" [] [.passStmt], .classDef "C" [.passStmt]]

/-- New revision keeping `f` and `C` and adding function `g`. -/
def newKeptName : List Stmt :=
  [.functionDef "f" [] [.passStmt], .classDef "C" [.passStmt],
   .functionDef "g" [] [.passStmt]]

/-! Helper lemmas about the list-level building blocks. -/

theorem mem_missingFrom {a : String} {l₁ l₂ : List String} :
    a ∈ missingFrom l₁ l₂ ↔ a ∈ l₁ ∧ a ∉ l₂ := by
  simp [missingFrom]

theorem missingFrom_self (l : List String) : missingFrom l l = [] := by
  simp [missingFrom, List.filter_eq_nil_iff]

theorem mem_insertSorted {a s : String} {l : List String} :
    a ∈ insertSorted s l ↔ a = s ∨ a ∈ l := by
  induction l with
  | nil => simp [insertSorted]
  | cons t rest ih =>
    simp only [insertSorted]
    split
    · simp [List.mem_cons]
    · simp only [List.mem_cons, ih]
      tauto

theorem mem_sortStrings {a : String} {l : List String} :
    a ∈ sortStrings l ↔ a ∈ l := by
  induction l with
  | nil => simp [sortStrings]
  | cons t rest ih =>
    have h : sortStrings (t :: rest) = insertSorted t (sortStrings rest) := rfl
    rw [h, mem_insertSorted, ih, List.mem_cons]

theorem extractedFunctions_def (t : List Stmt) :
    (visitAll emptyVisitor t).functions = extractedFunctions t := rfl

theorem extractedClasses_def (t : List Stmt) :
    (visitAll emptyVisitor t).classes = extractedClasses t := rfl

theorem depChangesOf_def (o n : List Stmt) :
    depDiff (visitAll emptyVisitor o) (visitAll emptyVisitor n) = depChangesOf o n := rfl

theorem renameOuter_nil (o n : List (String × Stmt)) (t : String)
    (a : List String) (st : RenameState) :
    renameOuter o n t a st [] = .ok st := rfl

theorem renameOuter_cons (o n : List (String × Stmt)) (t : String)
    (a : List String) (st : RenameState) (x : String) (xs : List String) :
    renameOuter o n t a st (x :: xs) = .error (.typeError "expected AST, got list") := rfl

theorem find_structure_changes_error (o n : List (String × Stmt)) (t : String)
    (h : missingFrom (keys o) (keys n) ≠ []) :
    find_structure_changes o n t = .error (.typeError "expected AST, got list") := by
  cases hm : missingFrom (keys o) (keys n) with
  | nil => exact absurd hm h
  | cons x xs =>
    simp only [find_structure_changes, hm, renameOuter_cons]

theorem find_structure_changes_ok (o n : List (String × Stmt)) (t : String)
    (h : missingFrom (keys o) (keys n) = []) :
    find_structure_changes o n t
      = .ok ((sortStrings (missingFrom (keys n) (keys o))).map (fun m => Change.added t m)) := by
  have hfilter : ∀ l : List String,
      l.filter (fun m => decide (m ∉ ([] : List String))) = l := by
    intro l
    simp
  simp only [find_structure_changes, h, renameOuter_nil, hfilter]
  simp [sortStrings]

theorem find_structure_changes_ok_inv (o n : List (String × Stmt)) (t : String)
    (cs : List Change) (h : find_structure_changes o n t = .ok cs) :
    cs = (sortStrings (missingFrom (keys n) (keys o))).map (fun m => Change.added t m) := by
  cases hm : missingFrom (keys o) (keys n) with
  | nil =>
    rw [find_structure_changes_ok o n t hm] at h
    exact (Except.ok.inj h).symm
  | cons x xs =>
    rw [find_structure_changes_error o n t (by rw [hm]; simp)] at h
    exact absurd h (by simp)

theorem core_ok (o n : List Stmt)
    (h1 : missingFrom (keys (extractedFunctions o)) (keys (extractedFunctions n)) = [])
    (h2 : missingFrom (keys (extractedClasses o)) (keys (extractedClasses n)) = []) :
    identify_semantic_changes_core o n
      = .ok (depChangesOf o n ++ fnAddedChanges o n ++ clsAddedChanges o n) := by
  simp only [identify_semantic_changes_core, extractedFunctions_def, extractedClasses_def,
    depChangesOf_def]
  rw [find_structure_changes_ok _ _ _ h1, find_structure_changes_ok _ _ _ h2]
  rfl

theorem core_error (o n : List Stmt)
    (h : missingFrom (keys (extractedFunctions o)) (keys (extractedFunctions n)) ≠ []
       ∨ missingFrom (keys (extractedClasses o)) (keys (extractedClasses n)) ≠ []) :
    identify_semantic_changes_core o n = .error (.typeError "expected AST, got list") := by
  simp only [identify_semantic_changes_core, extractedFunctions_def, extractedClasses_def]
  rcases h with h | h
  · rw [find_structure_changes_error _ _ _ h]
  · cases hm : missingFrom (keys (extractedFunctions o)) (keys (extractedFunctions n)) with
    | nil =>
      rw [find_structure_changes_ok _ _ _ hm, find_structure_changes_error _ _ _ h]
    | cons x xs =>
      rw [find_structure_changes_error _ _ _ (by rw [hm]; simp)]

theorem core_ok_inv (o n : List Stmt) (l : List Change)
    (h : identify_semantic_changes_core o n = .ok l) :
    l = depChangesOf o n ++ fnAddedChanges o n ++ clsAddedChanges o n := by
  simp only [identify_semantic_changes_core, extractedFunctions_def, extractedClasses_def,
    depChangesOf_def] at h
  cases hf : find_structure_changes (extractedFunctions o) (extractedFunctions n) "Function" with
  | error e => rw [hf] at h; exact absurd h (by simp)
  | ok fn_cs =>
    rw [hf] at h
    cases hc : find_structure_changes (extractedClasses o) (extractedClasses n) "Class" with
    | error e => rw [hc] at h; exact absurd h (by simp)
    | ok cls_cs =>
      rw [hc] at h
      simp only [Except.ok.injEq] at h
      rw [← h, find_structure_changes_ok_inv _ _ _ _ hf,
        find_structure_changes_ok_inv _ _ _ _ hc]
      rfl


/-! Claim theorems. -/

/-- C1 counterexample: the claim asserts that Scenario D (class `C`
keeps its name, method `m` changes its parameter list from
`(self, a, b)` to `(self, a, b, c)`) produces a `SignatureChanged`
record in the output.  The code performs no signature comparison (the
parameter lists are never read), so the output of this diff is empty:
it includes no record at all, in particular no signature record. -/
theorem C1_counterexample :
    identify_semantic_changes_core oldScenarioD newScenarioD = .ok [] := rfl

/-- C1 (amended): the code never compares signatures.  A method that
keeps its name inside a class that keeps its name produces no change
record whatsoever, for every pair of parameter lists and every pair of
returned expressions; in particular Scenario D yields the empty output
instead of a `SignatureChanged` record. -/
theorem C1_amended_no_signature_records :
    ∀ (ps qs : List String) (e1 e2 : Expr),
      identify_semantic_changes_core
        [.classDef "C" [.functionDef "m" ps [.ret (some e1)]]]
        [.classDef "C" [.functionDef "m" qs [.ret (some e2)]]] = .ok [] :=
  fun _ _ _ _ => rfl

/-- C2 (code bug): the claim (and the spec's Scenario E) says that
`def f(): pass` versus `def g(): pass` yields
`[Removed(Function, f), Added(Function, g)]` with no rename.  Instead
the diff raises `TypeError`: the rename scan calls `ast.dump` on the
removed function's body, which is a list, and CPython's `ast.dump`
rejects non-AST arguments.  The code's own unit tests
(`test_function_removed`, `test_empty_inputs`) assert that removal
inputs return record lists, so the crash contradicts the code's own
test suite. -/
theorem C2_trivial_bodies_crash :
    identify_semantic_changes_core oldScenarioE newScenarioE
      = .error (.typeError "expected AST, got list") := rfl

/-- C3 counterexample: the claim says that with several rename
candidates (here removed `f1`, `f2` and added `g1`, `g2`, all four
sharing one non-trivial body) the emitted `Renamed` pairs are the ones
selected by lexicographic first-fit.  No `Renamed` pair is emitted:
the diff raises `TypeError` on the first removed name. -/
theorem C3_counterexample :
    identify_semantic_changes_core oldRenameTwo newRenameTwo
      = .error (.typeError "expected AST, got list") := rfl

/-- C3 (amended): whenever at least one function or class name is
removed — the precondition for any rename pairing — the diff raises
`TypeError` (from `ast.dump` on a body list) instead of pairing
anything; consequently a successful output never contains a `Renamed`
record, and no pairing order is observable.  (Independently, the loop
iterates Python sets, whose order is hash-dependent rather than the
mandated lexical order.) -/
theorem C3_amended_no_renames :
    (∀ o n : List Stmt,
        (missingFrom (keys (extractedFunctions o)) (keys (extractedFunctions n)) ≠ []
          ∨ missingFrom (keys (extractedClasses o)) (keys (extractedClasses n)) ≠ []) →
        identify_semantic_changes_core o n = .error (.typeError "expected AST, got list"))
    ∧ (∀ (o n : List Stmt) (l : List Change),
        identify_semantic_changes_core o n = .ok l →
        ∀ c ∈ l, Change.isRenamed c = false) := by
  constructor
  · exact core_error
  · intro o n l h c hc
    rw [core_ok_inv o n l h] at hc
    simp only [List.mem_append] at hc
    rcases hc with (hc | hc) | hc
    · simp only [depChangesOf, depDiff, List.mem_append, List.mem_map] at hc
      rcases hc with ⟨s, _, rfl⟩ | ⟨s, _, rfl⟩ <;> rfl
    · simp only [fnAddedChanges, List.mem_map] at hc
      rcases hc with ⟨s, _, rfl⟩
      rfl
    · simp only [clsAddedChanges, List.mem_map] at hc
      rcases hc with ⟨s, _, rfl⟩
      rfl

/-- Witness for C3 (amended), at the source's own
`test_function_renamed` input (old `def old_name(): return 1 + 2`, new
`def new_name(): return 1 + 2`) and at an ok-output record. -/
theorem C3_amended_no_renames_witness :
    identify_semantic_changes_core oldRenameOne newRenameOne
        = .error (.typeError "expected AST, got list")
      ∧ Change.isRenamed (Change.added "Function" "g") = false := by
  constructor
  · exact C3_amended_no_renames.1 oldRenameOne newRenameOne (Or.inl (by decide))
  · exact C3_amended_no_renames.2 [Stmt.passStmt] [Stmt.functionDef "g" [] [Stmt.passStmt]]
      [Change.added "Function" "g"] rfl (Change.added "Function" "g") (by simp)

/-- C4 (code bug): the claim says a class present in only one revision
is reported once, as a class-level record, with its member functions
not separately enumerated.  The visitor's `generic_visit` recursion
records methods in the same flat `functions` dict as top-level
functions (contradicting its own docstring, which promises top-level
extraction), so adding `class C` with method `m` emits
`Function Added: m` alongside `Class Added: C`. -/
theorem C4_member_separately_enumerated :
    identify_semantic_changes_core passOnly newClassWithMethod
      = .ok [Change.added "Function" "m", Change.added "Class" "C"] := rfl

/-- C5 (code bug): the claim says the diff never fails on two
well-formed revisions.  On the source's own `test_function_removed`
input (old `def old_func(): return 42`, new `pass`) — both perfectly
parseable — the diff raises `TypeError`, because the rename scan calls
`ast.dump` on the removed function's body list. -/
theorem C5_crash_on_wellformed_inputs :
    identify_semantic_changes (.ok oldFnRemoved) (.ok passOnly)
      = .error (.typeError "expected AST, got list") := rfl

/-- C6 (code bug): the claim says dependencies hold top-level imports
only, so an `import` inside a function body never yields a dependency
record.  The visitor recurses into function bodies, so a nested
`import os` is collected and reported as `Dependency Added: os`. -/
theorem C6_nested_import_in_dependencies :
    identify_semantic_changes_core passOnly newNestedImport
      = .ok [Change.depAdded "os", Change.added "Function" "f"] := rfl

/-- C7: every successful diff output starts with the dependency block —
one `DependencyAdded` per element of `new.dependencies − old.dependencies`
in ascending order, then one `DependencyRemoved` per element of
`old.dependencies − new.dependencies` in ascending order (that is the
definition of `depChangesOf`) — followed only by non-dependency
records; and Scenario C (old `import os`; new `import os, sys` with a
`from collections` import) yields exactly
`[DependencyAdded collections, DependencyAdded sys]`. -/
theorem C7_dependency_diff_first_sorted :
    (∀ (o n : List Stmt) (l : List Change),
        identify_semantic_changes_core o n = .ok l →
        l = depChangesOf o n ++ (fnAddedChanges o n ++ clsAddedChanges o n))
    ∧ identify_semantic_changes_core oldScenarioC newScenarioC
        = .ok [Change.depAdded "collections", Change.depAdded "sys"] := by
  constructor
  · intro o n l h
    rw [core_ok_inv o n l h, List.append_assoc]
  · rfl

/-- Witness for C7, at the revision pair (empty, `import a`). -/
theorem C7_dependency_diff_first_sorted_witness :
    ([Change.depAdded "a"] : List Change)
      = depChangesOf [] [Stmt.importStmt ["a"]]
        ++ (fnAddedChanges [] [Stmt.importStmt ["a"]]
            ++ clsAddedChanges [] [Stmt.importStmt ["a"]]) :=
  C7_dependency_diff_first_sorted.1 [] [Stmt.importStmt ["a"]] [Change.depAdded "a"] rfl

/-- C8: diffing any tree against itself returns the empty change list,
both for the core diff and after rendering. -/
theorem C8_self_diff_empty :
    ∀ T : List Stmt,
      identify_semantic_changes_core T T = .ok []
      ∧ identify_semantic_changes (.ok T) (.ok T) = .ok [] := by
  intro T
  have h1 : depChangesOf T T = [] := by
    simp [depChangesOf, depDiff, missingFrom_self, sortStrings]
  have h2 : fnAddedChanges T T = [] := by
    simp [fnAddedChanges, missingFrom_self, sortStrings]
  have h3 : clsAddedChanges T T = [] := by
    simp [clsAddedChanges, missingFrom_self, sortStrings]
  have hcore : identify_semantic_changes_core T T = .ok [] := by
    rw [core_ok T T (missingFrom_self _) (missingFrom_self _), h1, h2, h3]
    rfl
  refine ⟨hcore, ?_⟩
  simp [identify_semantic_changes, hcore]

/-- C9 counterexample: the operation returns the identical
single-element result whether the old revision failed to parse or the
new one did, so the result cannot name which revision failed. -/
theorem C9_counterexample :
    identify_semantic_changes (.error "invalid syntax") (.ok passOnly)
        = identify_semantic_changes (.ok passOnly) (.error "invalid syntax")
      ∧ identify_semantic_changes (.error "invalid syntax") (.ok passOnly)
        = .ok ["Syntax error in code: invalid syntax"] :=
  ⟨rfl, rfl⟩

/-- C9 (amended): when either revision fails to parse, no diffing is
performed and a single error-shaped result carrying the parse message
is returned — the same string for an old-revision failure and a
new-revision failure, without identifying which revision failed. -/
theorem C9_amended_single_unattributed_error :
    ∀ (e : String) (nc : Except String (List Stmt)) (t : List Stmt),
      identify_semantic_changes (.error e) nc
          = .ok ["Syntax error in code: " ++ e]
      ∧ identify_semantic_changes (.ok t) (.error e)
          = .ok ["Syntax error in code: " ++ e] :=
  fun _ _ _ => ⟨rfl, rfl⟩

/-- C10: a declaration name present in both revisions with the same
kind is never mentioned by any record of a successful diff: no
`Added`, `Removed` or `Renamed` record of that kind carries that name,
whatever happened to its body or parameter list. -/
theorem C10_kept_names_produce_no_records :
    ∀ (o n : List Stmt) (x : String) (l : List Change),
      identify_semantic_changes_core o n = .ok l →
      (x ∈ keys (extractedFunctions o) → x ∈ keys (extractedFunctions n) →
        ∀ c ∈ l, mentionsDecl "Function" x c = false)
      ∧ (x ∈ keys (extractedClasses o) → x ∈ keys (extractedClasses n) →
        ∀ c ∈ l, mentionsDecl "Class" x c = false) := by
  intro o n x l h
  have hl := core_ok_inv o n l h
  subst hl
  constructor
  · intro hxo _hxn c hc
    simp only [List.mem_append] at hc
    rcases hc with (hc | hc) | hc
    · simp only [depChangesOf, depDiff, List.mem_append, List.mem_map] at hc
      rcases hc with ⟨s, _, rfl⟩ | ⟨s, _, rfl⟩ <;> rfl
    · simp only [fnAddedChanges, List.mem_map] at hc
      rcases hc with ⟨s, hs, rfl⟩
      rw [mem_sortStrings, mem_missingFrom] at hs
      have hne : s ≠ x := fun hEq => hs.2 (hEq ▸ hxo)
      simp [mentionsDecl, hne]
    · simp only [clsAddedChanges, List.mem_map] at hc
      rcases hc with ⟨s, _, rfl⟩
      rfl
  · intro hxo _hxn c hc
    simp only [List.mem_append] at hc
    rcases hc with (hc | hc) | hc
    · simp only [depChangesOf, depDiff, List.mem_append, List.mem_map] at hc
      rcases hc with ⟨s, _, rfl⟩ | ⟨s, _, rfl⟩ <;> rfl
    · simp only [fnAddedChanges, List.mem_map] at hc
      rcases hc with ⟨s, _, rfl⟩
      rfl
    · simp only [clsAddedChanges, List.mem_map] at hc
      rcases hc with ⟨s, hs, rfl⟩
      rw [mem_sortStrings, mem_missingFrom] at hs
      have hne : s ≠ x := fun hEq => hs.2 (hEq ▸ hxo)
      simp [mentionsDecl, hne]

/-- Witness for C10, at a pair keeping `f` and `C` while adding `g`:
the single emitted record does not mention `f`. -/
theorem C10_kept_names_produce_no_records_witness :
    mentionsDecl "Function" "f" (Change.added "Function" "g") = false := by
  have h := (C10_kept_names_produce_no_records oldKeptName newKeptName "f"
      [Change.added "Function" "g"] rfl).1 (by decide) (by decide)
  exact h (Change.added "Function" "g") (by simp)
